import Mathlib

/-!
Verification of the `xiaoxuan-assembly` repository against its
natural-language specification.

The development has two layers:

* Source embeddings: Lean translations of the Rust definitions found in
  the repository (the `encoder-x86-64` crate's instruction model and its
  `encode` stub, and the `parser` crate's instruction-syntax table and
  its dispatch).

* Spec models: the byte-packing encoder itself is left as a `todo!()`
  placeholder in the repository, so the behaviour the specification
  describes for it is modelled directly from the specification text;
  every such definition carries a doc comment starting with
  `Modelled from the spec:`.
-/

namespace XiaoxuanAsm

/-! ## Source embedding: `encoder-x86-64/src/instruction.rs` -/

/-- The `Register` enum of `encoder-x86-64/src/instruction.rs`, variant for
variant.  The source deliberately has no `AH`/`BH`/`CH`/`DH` variants
(legacy high-byte registers conflict with the REX prefix in long mode). -/
inductive Register where
  | RAX | EAX | AX | AL | RCX | ECX | CX | CL
  | RDX | EDX | DX | DL | RBX | EBX | BX | BL
  | RSP | ESP | SP | SPL | RBP | EBP | BP | BPL
  | RSI | ESI | SI | SIL | RDI | EDI | DI | DIL
  | R8 | R8D | R8W | R8B | R9 | R9D | R9W | R9B
  | R10 | R10D | R10W | R10B | R11 | R11D | R11W | R11B
  | R12 | R12D | R12W | R12B | R13 | R13D | R13W | R13B
  | R14 | R14D | R14W | R14B | R15 | R15D | R15W | R15B
  | XMM0 | YMM0 | ZMM0 | XMM1 | YMM1 | ZMM1 | XMM2 | YMM2
  | ZMM2 | XMM3 | YMM3 | ZMM3 | XMM4 | YMM4 | ZMM4 | XMM5
  | YMM5 | ZMM5 | XMM6 | YMM6 | ZMM6 | XMM7 | YMM7 | ZMM7
  | XMM8 | YMM8 | ZMM8 | XMM9 | YMM9 | ZMM9 | XMM10 | YMM10
  | ZMM10 | XMM11 | YMM11 | ZMM11 | XMM12 | YMM12 | ZMM12 | XMM13
  | YMM13 | ZMM13 | XMM14 | YMM14 | ZMM14 | XMM15 | YMM15 | ZMM15
  | RIP | EIP | IP | RFLAGS | EFLAGS | FLAGS | GS | FS
  deriving DecidableEq, Fintype


/-- The architectural name of each `Register` variant, as written in the
source enumeration. -/
def Register.name : Register → String
  | .RAX => "RAX"
  | .EAX => "EAX"
  | .AX => "AX"
  | .AL => "AL"
  | .RCX => "RCX"
  | .ECX => "ECX"
  | .CX => "CX"
  | .CL => "CL"
  | .RDX => "RDX"
  | .EDX => "EDX"
  | .DX => "DX"
  | .DL => "DL"
  | .RBX => "RBX"
  | .EBX => "EBX"
  | .BX => "BX"
  | .BL => "BL"
  | .RSP => "RSP"
  | .ESP => "ESP"
  | .SP => "SP"
  | .SPL => "SPL"
  | .RBP => "RBP"
  | .EBP => "EBP"
  | .BP => "BP"
  | .BPL => "BPL"
  | .RSI => "RSI"
  | .ESI => "ESI"
  | .SI => "SI"
  | .SIL => "SIL"
  | .RDI => "RDI"
  | .EDI => "EDI"
  | .DI => "DI"
  | .DIL => "DIL"
  | .R8 => "R8"
  | .R8D => "R8D"
  | .R8W => "R8W"
  | .R8B => "R8B"
  | .R9 => "R9"
  | .R9D => "R9D"
  | .R9W => "R9W"
  | .R9B => "R9B"
  | .R10 => "R10"
  | .R10D => "R10D"
  | .R10W => "R10W"
  | .R10B => "R10B"
  | .R11 => "R11"
  | .R11D => "R11D"
  | .R11W => "R11W"
  | .R11B => "R11B"
  | .R12 => "R12"
  | .R12D => "R12D"
  | .R12W => "R12W"
  | .R12B => "R12B"
  | .R13 => "R13"
  | .R13D => "R13D"
  | .R13W => "R13W"
  | .R13B => "R13B"
  | .R14 => "R14"
  | .R14D => "R14D"
  | .R14W => "R14W"
  | .R14B => "R14B"
  | .R15 => "R15"
  | .R15D => "R15D"
  | .R15W => "R15W"
  | .R15B => "R15B"
  | .XMM0 => "XMM0"
  | .YMM0 => "YMM0"
  | .ZMM0 => "ZMM0"
  | .XMM1 => "XMM1"
  | .YMM1 => "YMM1"
  | .ZMM1 => "ZMM1"
  | .XMM2 => "XMM2"
  | .YMM2 => "YMM2"
  | .ZMM2 => "ZMM2"
  | .XMM3 => "XMM3"
  | .YMM3 => "YMM3"
  | .ZMM3 => "ZMM3"
  | .XMM4 => "XMM4"
  | .YMM4 => "YMM4"
  | .ZMM4 => "ZMM4"
  | .XMM5 => "XMM5"
  | .YMM5 => "YMM5"
  | .ZMM5 => "ZMM5"
  | .XMM6 => "XMM6"
  | .YMM6 => "YMM6"
  | .ZMM6 => "ZMM6"
  | .XMM7 => "XMM7"
  | .YMM7 => "YMM7"
  | .ZMM7 => "ZMM7"
  | .XMM8 => "XMM8"
  | .YMM8 => "YMM8"
  | .ZMM8 => "ZMM8"
  | .XMM9 => "XMM9"
  | .YMM9 => "YMM9"
  | .ZMM9 => "ZMM9"
  | .XMM10 => "XMM10"
  | .YMM10 => "YMM10"
  | .ZMM10 => "ZMM10"
  | .XMM11 => "XMM11"
  | .YMM11 => "YMM11"
  | .ZMM11 => "ZMM11"
  | .XMM12 => "XMM12"
  | .YMM12 => "YMM12"
  | .ZMM12 => "ZMM12"
  | .XMM13 => "XMM13"
  | .YMM13 => "YMM13"
  | .ZMM13 => "ZMM13"
  | .XMM14 => "XMM14"
  | .YMM14 => "YMM14"
  | .ZMM14 => "ZMM14"
  | .XMM15 => "XMM15"
  | .YMM15 => "YMM15"
  | .ZMM15 => "ZMM15"
  | .RIP => "RIP"
  | .EIP => "EIP"
  | .IP => "IP"
  | .RFLAGS => "RFLAGS"
  | .EFLAGS => "EFLAGS"
  | .FLAGS => "FLAGS"
  | .GS => "GS"
  | .FS => "FS"

/-- The `Mnemonic` enum.  The `mnemonic` module is declared in
`encoder-x86-64/src/lib.rs` but its file is not among the given sources;
the constructors here are the mnemonics the specification names
(MOV, LEA, MOVZX, MOVSX, MOVSXD). -/
inductive Mnemonic where
  | MOV | LEA | MOVZX | MOVSX | MOVSXD
  deriving DecidableEq

/-- The `Operand` enum of `encoder-x86-64/src/instruction.rs`.  Machine
integers are embedded as `Fin` of the exact range of the Rust type, so
`Register(u8)` carries a `Fin 256` and `Memory(u64 /* size */)` carries a
`Fin (2 ^ 64)` - a single 64-bit size value, nothing else. -/
inductive Operand where
  | Register : Fin 256 → Operand
  | Immediate8 : Fin 256 → Operand
  | Immediate16 : Fin 65536 → Operand
  | Immediate32 : Fin 4294967296 → Operand
  | Immediate64 : Fin 18446744073709551616 → Operand
  | Memory : Fin 18446744073709551616 → Operand
  deriving DecidableEq

/-- Whether an `Operand` is tagged `Memory`. -/
def Operand.isMemory : Operand → Bool
  | .Memory _ => true
  | _ => false

/-- The `Instruction` struct: a mnemonic plus `[Option<Operand>; 4]`. -/
structure Instruction where
  mnemonic : Mnemonic
  operand0 : Option Operand
  operand1 : Option Operand
  operand2 : Option Operand
  operand3 : Option Operand
  deriving DecidableEq

/-! ## Source embedding: `encoder-x86-64/src/encode.rs` -/

/-- Result of running a Rust function that may panic instead of
returning. -/
inductive PanicOr (α : Type) where
  | panics : PanicOr α
  | value : α → PanicOr α
  deriving DecidableEq

/-- The `encode` function of `encoder-x86-64/src/encode.rs`.  Its entire
body is `todo!()`, which unconditionally panics, so the embedding returns
`PanicOr.panics` on every input.  (`current_address: u64` and
`lable_address_list: &Vec<(&str, u64)>` are embedded as `Nat` and
`List (String × Nat)`.) -/
def encode ( _instruction : Instruction) (_current_address : Nat)
    (_lable_address_list : List (String × Nat)) : PanicOr (List Nat) :=
  .panics

/-! ## Source embedding: `parser/src/native_assembly_instruction.rs` -/

/-- The `Opcode` ids the instruction map refers to.  The `Opcode` enum
itself lives in the `types` crate's `opcode` module, whose file is not
among the given sources; the constructors here are exactly the ones
`init_instruction_map_internal` names. -/
inductive Opcode where
  | addr_data
  | addr_local
  | addr_thread_local_data
  | data_load32_f32
  | data_load32_i16_s
  | data_load32_i16_u
  | data_load32_i32
  | data_load32_i8_s
  | data_load32_i8_u
  | data_load64_f64
  | data_load64_i16_s
  | data_load64_i16_u
  | data_load64_i32_s
  | data_load64_i32_u
  | data_load64_i64
  | data_load64_i8_s
  | data_load64_i8_u
  | data_store16
  | data_store32
  | data_store64
  | data_store8
  | f32_abs
  | f32_add
  | f32_ceil
  | f32_convert_i32_s
  | f32_convert_i32_u
  | f32_convert_i64_s
  | f32_convert_i64_u
  | f32_copysign
  | f32_demote_f64
  | f32_div
  | f32_eq
  | f32_floor
  | f32_ge
  | f32_gt
  | f32_le
  | f32_lt
  | f32_max
  | f32_min
  | f32_mul
  | f32_ne
  | f32_neg
  | f32_reinterpret_i32
  | f32_round_half_to_even
  | f32_sqrt
  | f32_sub
  | f32_trunc
  | f64_abs
  | f64_add
  | f64_ceil
  | f64_convert_i32_s
  | f64_convert_i32_u
  | f64_convert_i64_s
  | f64_convert_i64_u
  | f64_copysign
  | f64_div
  | f64_eq
  | f64_floor
  | f64_ge
  | f64_gt
  | f64_le
  | f64_lt
  | f64_max
  | f64_min
  | f64_mul
  | f64_ne
  | f64_neg
  | f64_promote_f32
  | f64_reinterpret_i64
  | f64_round_half_to_even
  | f64_sqrt
  | f64_sub
  | f64_trunc
  | i32_abs
  | i32_add
  | i32_and
  | i32_atomic_rmw_add
  | i32_atomic_rmw_and
  | i32_atomic_rmw_exchange
  | i32_atomic_rmw_or
  | i32_atomic_rmw_sub
  | i32_atomic_rmw_xor
  | i32_convert_f32_s
  | i32_convert_f32_u
  | i32_convert_f64_s
  | i32_convert_f64_u
  | i32_count_ones
  | i32_dec
  | i32_div_s
  | i32_div_u
  | i32_eq
  | i32_eqz
  | i32_ge_s
  | i32_ge_u
  | i32_gt_s
  | i32_gt_u
  | i32_inc
  | i32_le_s
  | i32_le_u
  | i32_leading_ones
  | i32_leading_zeros
  | i32_lt_s
  | i32_lt_u
  | i32_mul
  | i32_mul_hi_s
  | i32_mul_hi_u
  | i32_ne
  | i32_neg
  | i32_nez
  | i32_not
  | i32_or
  | i32_reinterpret_f32
  | i32_rem_s
  | i32_rem_u
  | i32_rotate_left
  | i32_rotate_right
  | i32_sat_convert_f32_s
  | i32_sat_convert_f32_u
  | i32_sat_convert_f64_s
  | i32_sat_convert_f64_u
  | i32_shift_left
  | i32_shift_right_s
  | i32_shift_right_u
  | i32_sub
  | i32_trailing_zeros
  | i32_truncate_i64
  | i32_xor
  | i64_abs
  | i64_add
  | i64_and
  | i64_atomic_rmw_add
  | i64_atomic_rmw_and
  | i64_atomic_rmw_exchange
  | i64_atomic_rmw_or
  | i64_atomic_rmw_sub
  | i64_atomic_rmw_xor
  | i64_convert_f32_s
  | i64_convert_f32_u
  | i64_convert_f64_s
  | i64_convert_f64_u
  | i64_count_ones
  | i64_dec
  | i64_div_s
  | i64_div_u
  | i64_eq
  | i64_eqz
  | i64_extend_i32_s
  | i64_extend_i32_u
  | i64_ge_s
  | i64_ge_u
  | i64_gt_s
  | i64_gt_u
  | i64_inc
  | i64_le_s
  | i64_le_u
  | i64_leading_ones
  | i64_leading_zeros
  | i64_lt_s
  | i64_lt_u
  | i64_mul
  | i64_mul_hi_s
  | i64_mul_hi_u
  | i64_ne
  | i64_neg
  | i64_nez
  | i64_not
  | i64_or
  | i64_reinterpret_f64
  | i64_rem_s
  | i64_rem_u
  | i64_rotate_left
  | i64_rotate_right
  | i64_sat_convert_f32_s
  | i64_sat_convert_f32_u
  | i64_sat_convert_f64_s
  | i64_sat_convert_f64_u
  | i64_shift_left
  | i64_shift_right_s
  | i64_shift_right_u
  | i64_sub
  | i64_trailing_zeros
  | i64_xor
  | local_load32_f32
  | local_load32_i16_s
  | local_load32_i16_u
  | local_load32_i32
  | local_load32_i8_s
  | local_load32_i8_u
  | local_load64_f64
  | local_load64_i16_s
  | local_load64_i16_u
  | local_load64_i32_s
  | local_load64_i32_u
  | local_load64_i64
  | local_load64_i8_s
  | local_load64_i8_u
  | local_store16
  | local_store32
  | local_store64
  | local_store8
  | memory_load32_f32
  | memory_load32_i16_s
  | memory_load32_i16_u
  | memory_load32_i32
  | memory_load32_i8_s
  | memory_load32_i8_u
  | memory_load64_f64
  | memory_load64_i16_s
  | memory_load64_i16_u
  | memory_load64_i32_s
  | memory_load64_i32_u
  | memory_load64_i64
  | memory_load64_i8_s
  | memory_load64_i8_u
  | memory_store16
  | memory_store32
  | memory_store64
  | memory_store8
  deriving DecidableEq

/-- The `InstructionSyntaxKind` enum of
`parser/src/native_assembly_instruction.rs`, variant for variant. -/
inductive InstructionSyntaxKind where
  | ImmI32
  | ImmI64
  | ImmF32
  | ImmF64
  | LocalLoad (op : Opcode)
  | LocalStore (op : Opcode)
  | DataLoad (op : Opcode)
  | DataStore (op : Opcode)
  | MemoryLoad (op : Opcode)
  | MemoryStore (op : Opcode)
  | UnaryOp (op : Opcode)
  | UnaryOpWithImmI64 (op : Opcode)
  | BinaryOp (op : Opcode)
  | AtomicRmw (op : Opcode)
  | AtomicCas
  | When
  | If
  | Branch
  | For
  | Sequence (node_name : String)
  | Call
  | DynCall
  | SysCall
  | Trap
  | AddrFunction
  deriving DecidableEq

/-- The `(name, kind)` pairs inserted by `init_instruction_map_internal`,
in source order.  The Rust `HashMap` is embedded as an association list;
every key below is distinct, so `List.lookup` (first match) agrees with
`HashMap::get` after these inserts. -/
def instructionMapEntries : List (String × InstructionSyntaxKind) :=
  [("local.load64_i64", InstructionSyntaxKind.LocalLoad Opcode.local_load64_i64),
  ("local.load64_f64", InstructionSyntaxKind.LocalLoad Opcode.local_load64_f64),
  ("local.load64_i32_s", InstructionSyntaxKind.LocalLoad Opcode.local_load64_i32_s),
  ("local.load64_i32_u", InstructionSyntaxKind.LocalLoad Opcode.local_load64_i32_u),
  ("local.load64_i16_s", InstructionSyntaxKind.LocalLoad Opcode.local_load64_i16_s),
  ("local.load64_i16_u", InstructionSyntaxKind.LocalLoad Opcode.local_load64_i16_u),
  ("local.load64_i8_s", InstructionSyntaxKind.LocalLoad Opcode.local_load64_i8_s),
  ("local.load64_i8_u", InstructionSyntaxKind.LocalLoad Opcode.local_load64_i8_u),
  ("local.load32_i32", InstructionSyntaxKind.LocalLoad Opcode.local_load32_i32),
  ("local.load32_f32", InstructionSyntaxKind.LocalLoad Opcode.local_load32_f32),
  ("local.load32_i16_s", InstructionSyntaxKind.LocalLoad Opcode.local_load32_i16_s),
  ("local.load32_i16_u", InstructionSyntaxKind.LocalLoad Opcode.local_load32_i16_u),
  ("local.load32_i8_s", InstructionSyntaxKind.LocalLoad Opcode.local_load32_i8_s),
  ("local.load32_i8_u", InstructionSyntaxKind.LocalLoad Opcode.local_load32_i8_u),
  ("local.store64", InstructionSyntaxKind.LocalStore Opcode.local_store64),
  ("local.store32", InstructionSyntaxKind.LocalStore Opcode.local_store32),
  ("local.store16", InstructionSyntaxKind.LocalStore Opcode.local_store16),
  ("local.store8", InstructionSyntaxKind.LocalStore Opcode.local_store8),
  ("data.load64_i64", InstructionSyntaxKind.DataLoad Opcode.data_load64_i64),
  ("data.load64_f64", InstructionSyntaxKind.DataLoad Opcode.data_load64_f64),
  ("data.load64_i32_s", InstructionSyntaxKind.DataLoad Opcode.data_load64_i32_s),
  ("data.load64_i32_u", InstructionSyntaxKind.DataLoad Opcode.data_load64_i32_u),
  ("data.load64_i16_s", InstructionSyntaxKind.DataLoad Opcode.data_load64_i16_s),
  ("data.load64_i16_u", InstructionSyntaxKind.DataLoad Opcode.data_load64_i16_u),
  ("data.load64_i8_s", InstructionSyntaxKind.DataLoad Opcode.data_load64_i8_s),
  ("data.load64_i8_u", InstructionSyntaxKind.DataLoad Opcode.data_load64_i8_u),
  ("data.load32_i32", InstructionSyntaxKind.DataLoad Opcode.data_load32_i32),
  ("data.load32_f32", InstructionSyntaxKind.DataLoad Opcode.data_load32_f32),
  ("data.load32_i16_s", InstructionSyntaxKind.DataLoad Opcode.data_load32_i16_s),
  ("data.load32_i16_u", InstructionSyntaxKind.DataLoad Opcode.data_load32_i16_u),
  ("data.load32_i8_s", InstructionSyntaxKind.DataLoad Opcode.data_load32_i8_s),
  ("data.load32_i8_u", InstructionSyntaxKind.DataLoad Opcode.data_load32_i8_u),
  ("data.store64", InstructionSyntaxKind.DataStore Opcode.data_store64),
  ("data.store32", InstructionSyntaxKind.DataStore Opcode.data_store32),
  ("data.store16", InstructionSyntaxKind.DataStore Opcode.data_store16),
  ("data.store8", InstructionSyntaxKind.DataStore Opcode.data_store8),
  ("memory.load64_i64", InstructionSyntaxKind.MemoryLoad Opcode.memory_load64_i64),
  ("memory.load64_f64", InstructionSyntaxKind.MemoryLoad Opcode.memory_load64_f64),
  ("memory.load64_i32_s", InstructionSyntaxKind.MemoryLoad Opcode.memory_load64_i32_s),
  ("memory.load64_i32_u", InstructionSyntaxKind.MemoryLoad Opcode.memory_load64_i32_u),
  ("memory.load64_i16_s", InstructionSyntaxKind.MemoryLoad Opcode.memory_load64_i16_s),
  ("memory.load64_i16_u", InstructionSyntaxKind.MemoryLoad Opcode.memory_load64_i16_u),
  ("memory.load64_i8_s", InstructionSyntaxKind.MemoryLoad Opcode.memory_load64_i8_s),
  ("memory.load64_i8_u", InstructionSyntaxKind.MemoryLoad Opcode.memory_load64_i8_u),
  ("memory.load32_i32", InstructionSyntaxKind.MemoryLoad Opcode.memory_load32_i32),
  ("memory.load32_f32", InstructionSyntaxKind.MemoryLoad Opcode.memory_load32_f32),
  ("memory.load32_i16_s", InstructionSyntaxKind.MemoryLoad Opcode.memory_load32_i16_s),
  ("memory.load32_i16_u", InstructionSyntaxKind.MemoryLoad Opcode.memory_load32_i16_u),
  ("memory.load32_i8_s", InstructionSyntaxKind.MemoryLoad Opcode.memory_load32_i8_s),
  ("memory.load32_i8_u", InstructionSyntaxKind.MemoryLoad Opcode.memory_load32_i8_u),
  ("memory.store64", InstructionSyntaxKind.MemoryStore Opcode.memory_store64),
  ("memory.store32", InstructionSyntaxKind.MemoryStore Opcode.memory_store32),
  ("memory.store16", InstructionSyntaxKind.MemoryStore Opcode.memory_store16),
  ("memory.store8", InstructionSyntaxKind.MemoryStore Opcode.memory_store8),
  ("i32.truncate_i64", InstructionSyntaxKind.UnaryOp Opcode.i32_truncate_i64),
  ("i64.extend_i32_s", InstructionSyntaxKind.UnaryOp Opcode.i64_extend_i32_s),
  ("i64.extend_i32_u", InstructionSyntaxKind.UnaryOp Opcode.i64_extend_i32_u),
  ("f32.demote_f64", InstructionSyntaxKind.UnaryOp Opcode.f32_demote_f64),
  ("f64.promote_f32", InstructionSyntaxKind.UnaryOp Opcode.f64_promote_f32),
  ("i32.convert_f32_s", InstructionSyntaxKind.UnaryOp Opcode.i32_convert_f32_s),
  ("i32.convert_f32_u", InstructionSyntaxKind.UnaryOp Opcode.i32_convert_f32_u),
  ("i32.convert_f64_s", InstructionSyntaxKind.UnaryOp Opcode.i32_convert_f64_s),
  ("i32.convert_f64_u", InstructionSyntaxKind.UnaryOp Opcode.i32_convert_f64_u),
  ("i64.convert_f32_s", InstructionSyntaxKind.UnaryOp Opcode.i64_convert_f32_s),
  ("i64.convert_f32_u", InstructionSyntaxKind.UnaryOp Opcode.i64_convert_f32_u),
  ("i64.convert_f64_s", InstructionSyntaxKind.UnaryOp Opcode.i64_convert_f64_s),
  ("i64.convert_f64_u", InstructionSyntaxKind.UnaryOp Opcode.i64_convert_f64_u),
  ("f32.convert_i32_s", InstructionSyntaxKind.UnaryOp Opcode.f32_convert_i32_s),
  ("f32.convert_i32_u", InstructionSyntaxKind.UnaryOp Opcode.f32_convert_i32_u),
  ("f32.convert_i64_s", InstructionSyntaxKind.UnaryOp Opcode.f32_convert_i64_s),
  ("f32.convert_i64_u", InstructionSyntaxKind.UnaryOp Opcode.f32_convert_i64_u),
  ("f64.convert_i32_s", InstructionSyntaxKind.UnaryOp Opcode.f64_convert_i32_s),
  ("f64.convert_i32_u", InstructionSyntaxKind.UnaryOp Opcode.f64_convert_i32_u),
  ("f64.convert_i64_s", InstructionSyntaxKind.UnaryOp Opcode.f64_convert_i64_s),
  ("f64.convert_i64_u", InstructionSyntaxKind.UnaryOp Opcode.f64_convert_i64_u),
  ("i32.sat_convert_f32_s", InstructionSyntaxKind.UnaryOp Opcode.i32_sat_convert_f32_s),
  ("i32.sat_convert_f32_u", InstructionSyntaxKind.UnaryOp Opcode.i32_sat_convert_f32_u),
  ("i32.sat_convert_f64_s", InstructionSyntaxKind.UnaryOp Opcode.i32_sat_convert_f64_s),
  ("i32.sat_convert_f64_u", InstructionSyntaxKind.UnaryOp Opcode.i32_sat_convert_f64_u),
  ("i64.sat_convert_f32_s", InstructionSyntaxKind.UnaryOp Opcode.i64_sat_convert_f32_s),
  ("i64.sat_convert_f32_u", InstructionSyntaxKind.UnaryOp Opcode.i64_sat_convert_f32_u),
  ("i64.sat_convert_f64_s", InstructionSyntaxKind.UnaryOp Opcode.i64_sat_convert_f64_s),
  ("i64.sat_convert_f64_u", InstructionSyntaxKind.UnaryOp Opcode.i64_sat_convert_f64_u),
  ("i32.reinterpret_f32", InstructionSyntaxKind.UnaryOp Opcode.i32_reinterpret_f32),
  ("i64.reinterpret_f64", InstructionSyntaxKind.UnaryOp Opcode.i64_reinterpret_f64),
  ("f32.reinterpret_i32", InstructionSyntaxKind.UnaryOp Opcode.f32_reinterpret_i32),
  ("f64.reinterpret_i64", InstructionSyntaxKind.UnaryOp Opcode.f64_reinterpret_i64),
  ("i32.eqz", InstructionSyntaxKind.UnaryOp Opcode.i32_eqz),
  ("i32.nez", InstructionSyntaxKind.UnaryOp Opcode.i32_nez),
  ("i32.eq", InstructionSyntaxKind.BinaryOp Opcode.i32_eq),
  ("i32.ne", InstructionSyntaxKind.BinaryOp Opcode.i32_ne),
  ("i32.lt_s", InstructionSyntaxKind.BinaryOp Opcode.i32_lt_s),
  ("i32.lt_u", InstructionSyntaxKind.BinaryOp Opcode.i32_lt_u),
  ("i32.gt_s", InstructionSyntaxKind.BinaryOp Opcode.i32_gt_s),
  ("i32.gt_u", InstructionSyntaxKind.BinaryOp Opcode.i32_gt_u),
  ("i32.le_s", InstructionSyntaxKind.BinaryOp Opcode.i32_le_s),
  ("i32.le_u", InstructionSyntaxKind.BinaryOp Opcode.i32_le_u),
  ("i32.ge_s", InstructionSyntaxKind.BinaryOp Opcode.i32_ge_s),
  ("i32.ge_u", InstructionSyntaxKind.BinaryOp Opcode.i32_ge_u),
  ("i64.eqz", InstructionSyntaxKind.UnaryOp Opcode.i64_eqz),
  ("i64.nez", InstructionSyntaxKind.UnaryOp Opcode.i64_nez),
  ("i64.eq", InstructionSyntaxKind.BinaryOp Opcode.i64_eq),
  ("i64.ne", InstructionSyntaxKind.BinaryOp Opcode.i64_ne),
  ("i64.lt_s", InstructionSyntaxKind.BinaryOp Opcode.i64_lt_s),
  ("i64.lt_u", InstructionSyntaxKind.BinaryOp Opcode.i64_lt_u),
  ("i64.gt_s", InstructionSyntaxKind.BinaryOp Opcode.i64_gt_s),
  ("i64.gt_u", InstructionSyntaxKind.BinaryOp Opcode.i64_gt_u),
  ("i64.le_s", InstructionSyntaxKind.BinaryOp Opcode.i64_le_s),
  ("i64.le_u", InstructionSyntaxKind.BinaryOp Opcode.i64_le_u),
  ("i64.ge_s", InstructionSyntaxKind.BinaryOp Opcode.i64_ge_s),
  ("i64.ge_u", InstructionSyntaxKind.BinaryOp Opcode.i64_ge_u),
  ("f32.eq", InstructionSyntaxKind.BinaryOp Opcode.f32_eq),
  ("f32.ne", InstructionSyntaxKind.BinaryOp Opcode.f32_ne),
  ("f32.lt", InstructionSyntaxKind.BinaryOp Opcode.f32_lt),
  ("f32.gt", InstructionSyntaxKind.BinaryOp Opcode.f32_gt),
  ("f32.le", InstructionSyntaxKind.BinaryOp Opcode.f32_le),
  ("f32.ge", InstructionSyntaxKind.BinaryOp Opcode.f32_ge),
  ("f64.eq", InstructionSyntaxKind.BinaryOp Opcode.f64_eq),
  ("f64.ne", InstructionSyntaxKind.BinaryOp Opcode.f64_ne),
  ("f64.lt", InstructionSyntaxKind.BinaryOp Opcode.f64_lt),
  ("f64.gt", InstructionSyntaxKind.BinaryOp Opcode.f64_gt),
  ("f64.le", InstructionSyntaxKind.BinaryOp Opcode.f64_le),
  ("f64.ge", InstructionSyntaxKind.BinaryOp Opcode.f64_ge),
  ("i32.add", InstructionSyntaxKind.BinaryOp Opcode.i32_add),
  ("i32.sub", InstructionSyntaxKind.BinaryOp Opcode.i32_sub),
  ("i32.mul", InstructionSyntaxKind.BinaryOp Opcode.i32_mul),
  ("i32.mul_hi_s", InstructionSyntaxKind.BinaryOp Opcode.i32_mul_hi_s),
  ("i32.mul_hi_u", InstructionSyntaxKind.BinaryOp Opcode.i32_mul_hi_u),
  ("i32.div_s", InstructionSyntaxKind.BinaryOp Opcode.i32_div_s),
  ("i32.div_u", InstructionSyntaxKind.BinaryOp Opcode.i32_div_u),
  ("i32.rem_s", InstructionSyntaxKind.BinaryOp Opcode.i32_rem_s),
  ("i32.rem_u", InstructionSyntaxKind.BinaryOp Opcode.i32_rem_u),
  ("i32.inc", InstructionSyntaxKind.UnaryOpWithImmI64 Opcode.i32_inc),
  ("i32.dec", InstructionSyntaxKind.UnaryOpWithImmI64 Opcode.i32_dec),
  ("i64.add", InstructionSyntaxKind.BinaryOp Opcode.i64_add),
  ("i64.sub", InstructionSyntaxKind.BinaryOp Opcode.i64_sub),
  ("i64.mul", InstructionSyntaxKind.BinaryOp Opcode.i64_mul),
  ("i64.mul_hi_s", InstructionSyntaxKind.BinaryOp Opcode.i64_mul_hi_s),
  ("i64.mul_hi_u", InstructionSyntaxKind.BinaryOp Opcode.i64_mul_hi_u),
  ("i64.div_s", InstructionSyntaxKind.BinaryOp Opcode.i64_div_s),
  ("i64.div_u", InstructionSyntaxKind.BinaryOp Opcode.i64_div_u),
  ("i64.rem_s", InstructionSyntaxKind.BinaryOp Opcode.i64_rem_s),
  ("i64.rem_u", InstructionSyntaxKind.BinaryOp Opcode.i64_rem_u),
  ("i64.inc", InstructionSyntaxKind.UnaryOpWithImmI64 Opcode.i64_inc),
  ("i64.dec", InstructionSyntaxKind.UnaryOpWithImmI64 Opcode.i64_dec),
  ("f32.add", InstructionSyntaxKind.BinaryOp Opcode.f32_add),
  ("f32.sub", InstructionSyntaxKind.BinaryOp Opcode.f32_sub),
  ("f32.mul", InstructionSyntaxKind.BinaryOp Opcode.f32_mul),
  ("f32.div", InstructionSyntaxKind.BinaryOp Opcode.f32_div),
  ("f64.add", InstructionSyntaxKind.BinaryOp Opcode.f64_add),
  ("f64.sub", InstructionSyntaxKind.BinaryOp Opcode.f64_sub),
  ("f64.mul", InstructionSyntaxKind.BinaryOp Opcode.f64_mul),
  ("f64.div", InstructionSyntaxKind.BinaryOp Opcode.f64_div),
  ("i32.and", InstructionSyntaxKind.BinaryOp Opcode.i32_and),
  ("i32.or", InstructionSyntaxKind.BinaryOp Opcode.i32_or),
  ("i32.xor", InstructionSyntaxKind.BinaryOp Opcode.i32_xor),
  ("i32.shift_left", InstructionSyntaxKind.BinaryOp Opcode.i32_shift_left),
  ("i32.shift_right_s", InstructionSyntaxKind.BinaryOp Opcode.i32_shift_right_s),
  ("i32.shift_right_u", InstructionSyntaxKind.BinaryOp Opcode.i32_shift_right_u),
  ("i32.rotate_left", InstructionSyntaxKind.BinaryOp Opcode.i32_rotate_left),
  ("i32.rotate_right", InstructionSyntaxKind.BinaryOp Opcode.i32_rotate_right),
  ("i32.not", InstructionSyntaxKind.UnaryOp Opcode.i32_not),
  ("i32.leading_zeros", InstructionSyntaxKind.UnaryOp Opcode.i32_leading_zeros),
  ("i32.leading_ones", InstructionSyntaxKind.UnaryOp Opcode.i32_leading_ones),
  ("i32.trailing_zeros", InstructionSyntaxKind.UnaryOp Opcode.i32_trailing_zeros),
  ("i32.count_ones", InstructionSyntaxKind.UnaryOp Opcode.i32_count_ones),
  ("i64.and", InstructionSyntaxKind.BinaryOp Opcode.i64_and),
  ("i64.or", InstructionSyntaxKind.BinaryOp Opcode.i64_or),
  ("i64.xor", InstructionSyntaxKind.BinaryOp Opcode.i64_xor),
  ("i64.shift_left", InstructionSyntaxKind.BinaryOp Opcode.i64_shift_left),
  ("i64.shift_right_s", InstructionSyntaxKind.BinaryOp Opcode.i64_shift_right_s),
  ("i64.shift_right_u", InstructionSyntaxKind.BinaryOp Opcode.i64_shift_right_u),
  ("i64.rotate_left", InstructionSyntaxKind.BinaryOp Opcode.i64_rotate_left),
  ("i64.rotate_right", InstructionSyntaxKind.BinaryOp Opcode.i64_rotate_right),
  ("i64.not", InstructionSyntaxKind.UnaryOp Opcode.i64_not),
  ("i64.leading_zeros", InstructionSyntaxKind.UnaryOp Opcode.i64_leading_zeros),
  ("i64.leading_ones", InstructionSyntaxKind.UnaryOp Opcode.i64_leading_ones),
  ("i64.trailing_zeros", InstructionSyntaxKind.UnaryOp Opcode.i64_trailing_zeros),
  ("i64.count_ones", InstructionSyntaxKind.UnaryOp Opcode.i64_count_ones),
  ("i32.abs", InstructionSyntaxKind.UnaryOp Opcode.i32_abs),
  ("i32.neg", InstructionSyntaxKind.UnaryOp Opcode.i32_neg),
  ("i64.abs", InstructionSyntaxKind.UnaryOp Opcode.i64_abs),
  ("i64.neg", InstructionSyntaxKind.UnaryOp Opcode.i64_neg),
  ("f32.abs", InstructionSyntaxKind.UnaryOp Opcode.f32_abs),
  ("f32.neg", InstructionSyntaxKind.UnaryOp Opcode.f32_neg),
  ("f32.ceil", InstructionSyntaxKind.UnaryOp Opcode.f32_ceil),
  ("f32.floor", InstructionSyntaxKind.UnaryOp Opcode.f32_floor),
  ("f32.round_half_to_even", InstructionSyntaxKind.UnaryOp Opcode.f32_round_half_to_even),
  ("f32.trunc", InstructionSyntaxKind.UnaryOp Opcode.f32_trunc),
  ("f32.sqrt", InstructionSyntaxKind.UnaryOp Opcode.f32_sqrt),
  ("f32.copysign", InstructionSyntaxKind.BinaryOp Opcode.f32_copysign),
  ("f32.min", InstructionSyntaxKind.BinaryOp Opcode.f32_min),
  ("f32.max", InstructionSyntaxKind.BinaryOp Opcode.f32_max),
  ("f64.abs", InstructionSyntaxKind.UnaryOp Opcode.f64_abs),
  ("f64.neg", InstructionSyntaxKind.UnaryOp Opcode.f64_neg),
  ("f64.ceil", InstructionSyntaxKind.UnaryOp Opcode.f64_ceil),
  ("f64.floor", InstructionSyntaxKind.UnaryOp Opcode.f64_floor),
  ("f64.round_half_to_even", InstructionSyntaxKind.UnaryOp Opcode.f64_round_half_to_even),
  ("f64.trunc", InstructionSyntaxKind.UnaryOp Opcode.f64_trunc),
  ("f64.sqrt", InstructionSyntaxKind.UnaryOp Opcode.f64_sqrt),
  ("f64.copysign", InstructionSyntaxKind.BinaryOp Opcode.f64_copysign),
  ("f64.min", InstructionSyntaxKind.BinaryOp Opcode.f64_min),
  ("f64.max", InstructionSyntaxKind.BinaryOp Opcode.f64_max),
  ("trap", InstructionSyntaxKind.Trap),
  ("addr.local", InstructionSyntaxKind.LocalLoad Opcode.addr_local),
  ("addr.data", InstructionSyntaxKind.DataLoad Opcode.addr_data),
  ("addr.thread_local_data", InstructionSyntaxKind.DataLoad Opcode.addr_thread_local_data),
  ("addr.function", InstructionSyntaxKind.AddrFunction),
  ("i32.atomic_rmw_add", InstructionSyntaxKind.AtomicRmw Opcode.i32_atomic_rmw_add),
  ("i32.atomic_rmw_sub", InstructionSyntaxKind.AtomicRmw Opcode.i32_atomic_rmw_sub),
  ("i32.atomic_rmw_and", InstructionSyntaxKind.AtomicRmw Opcode.i32_atomic_rmw_and),
  ("i32.atomic_rmw_or", InstructionSyntaxKind.AtomicRmw Opcode.i32_atomic_rmw_or),
  ("i32.atomic_rmw_xor", InstructionSyntaxKind.AtomicRmw Opcode.i32_atomic_rmw_xor),
  ("i32.atomic_rmw_exchange", InstructionSyntaxKind.AtomicRmw Opcode.i32_atomic_rmw_exchange),
  ("i32.atomic_cas", InstructionSyntaxKind.AtomicCas),
  ("i64.atomic_rmw_add", InstructionSyntaxKind.AtomicRmw Opcode.i64_atomic_rmw_add),
  ("i64.atomic_rmw_sub", InstructionSyntaxKind.AtomicRmw Opcode.i64_atomic_rmw_sub),
  ("i64.atomic_rmw_and", InstructionSyntaxKind.AtomicRmw Opcode.i64_atomic_rmw_and),
  ("i64.atomic_rmw_or", InstructionSyntaxKind.AtomicRmw Opcode.i64_atomic_rmw_or),
  ("i64.atomic_rmw_xor", InstructionSyntaxKind.AtomicRmw Opcode.i64_atomic_rmw_xor),
  ("i64.atomic_rmw_exchange", InstructionSyntaxKind.AtomicRmw Opcode.i64_atomic_rmw_exchange),
  ("i64.atomic_cas", InstructionSyntaxKind.AtomicCas),
  ("i32.imm", InstructionSyntaxKind.ImmI32),
  ("i64.imm", InstructionSyntaxKind.ImmI64),
  ("f32.imm", InstructionSyntaxKind.ImmF32),
  ("f64.imm", InstructionSyntaxKind.ImmF64),
  ("when", InstructionSyntaxKind.When),
  ("if", InstructionSyntaxKind.If),
  ("branch", InstructionSyntaxKind.Branch),
  ("for", InstructionSyntaxKind.For),
  ("do", InstructionSyntaxKind.Sequence "do"),
  ("break", InstructionSyntaxKind.Sequence "break"),
  ("return", InstructionSyntaxKind.Sequence "return"),
  ("recur", InstructionSyntaxKind.Sequence "recur"),
  ("rerun", InstructionSyntaxKind.Sequence "rerun"),
  ("call", InstructionSyntaxKind.Call),
  ("dyncall", InstructionSyntaxKind.DynCall),
  ("syscall", InstructionSyntaxKind.SysCall)]

/-- The table `init_instruction_map_internal` builds and stores into
`INSTRUCTION_MAP`. -/
def buildInstructionMap : List (String × InstructionSyntaxKind) :=
  instructionMapEntries

/-- `get_instruction_kind`-style lookup into the built table
(`HashMap::get`). -/
def tableLookup (inst_name : String)
    (table : List (String × InstructionSyntaxKind)) :
    Option InstructionSyntaxKind :=
  table.lookup inst_name

/-- The mutable statics of `parser/src/native_assembly_instruction.rs`:
the `INIT: Once` guard and `INSTRUCTION_MAP: Option<HashMap<..>>`,
together with a ghost counter of how many times the table has actually
been constructed. -/
structure ParserGlobals where
  onceDone : Bool
  instructionMap : Option (List (String × InstructionSyntaxKind))
  builds : Nat
  deriving DecidableEq

/-- Process start: `INIT` has not fired and `INSTRUCTION_MAP` is `None`. -/
def initialParserGlobals : ParserGlobals :=
  { onceDone := false, instructionMap := none, builds := 0 }

/-- `init_instruction_map`: `INIT.call_once(|| init_instruction_map_internal())`.
The closure body runs only if the `Once` guard has not fired yet; it
builds the table and stores it into `INSTRUCTION_MAP` (the single write
to that static in the crate). -/
def init_instruction_map (s : ParserGlobals) : ParserGlobals :=
  if s.onceDone then s
  else { onceDone := true
         instructionMap := some buildInstructionMap
         builds := s.builds + 1 }

/-! ## Source embedding: `parser/src/parser.rs` (instruction dispatch) -/

/-- Tokens of the S-expression lexer.  The `lexer` module is used by
`parser.rs` but its file is not among the given sources; only the
variants the instruction dispatch inspects (`LeftParen` and `Symbol`)
are distinguished here, everything else is collapsed into `other`. -/
inductive Token where
  | LeftParen
  | RightParen
  | Symbol (s : String)
  | other
  deriving DecidableEq

/-- How one call of `parse_instruction_with_parentheses` leaves its
caller: by delegating to the sub-parser selected for the looked-up
instruction kind (which then returns `Ok(..)` or `Err(ParseError)`), by
returning a `ParseError` itself, or by hitting a `todo!()` and
panicking. -/
inductive DispatchOutcome where
  | delegate (kind : InstructionSyntaxKind)
  | parseErr (msg : String)
  | todoPanic
  deriving DecidableEq

/-- The dispatch of `parse_instruction_with_parentheses`
(`parser/src/parser.rs`): peek the token after the opening parenthesis;
if it is a symbol, look its name up in the instruction map and branch on
the `InstructionSyntaxKind`, arm for arm as in the source `match`.  The
`AtomicRmw(_)` and `AtomicCas` arms are `todo!()` in the source. -/
def parse_instruction_with_parentheses
    (table : List (String × InstructionSyntaxKind))
    (tokens : List Token) : DispatchOutcome :=
  match tokens[1]? with
  | some (Token.Symbol child_node_name) =>
    match tableLookup child_node_name table with
    | some kind =>
      match kind with
      | .LocalLoad op => .delegate (.LocalLoad op)
      | .LocalStore op => .delegate (.LocalStore op)
      | .DataLoad op => .delegate (.DataLoad op)
      | .DataStore op => .delegate (.DataStore op)
      | .MemoryLoad op => .delegate (.MemoryLoad op)
      | .MemoryStore op => .delegate (.MemoryStore op)
      | .UnaryOp op => .delegate (.UnaryOp op)
      | .UnaryOpWithImmI64 op => .delegate (.UnaryOpWithImmI64 op)
      | .BinaryOp op => .delegate (.BinaryOp op)
      | .ImmI32 => .delegate .ImmI32
      | .ImmI64 => .delegate .ImmI64
      | .ImmF32 => .delegate .ImmF32
      | .ImmF64 => .delegate .ImmF64
      | .When => .delegate .When
      | .If => .delegate .If
      | .Branch => .delegate .Branch
      | .For => .delegate .For
      | .Sequence node_name => .delegate (.Sequence node_name)
      | .Call => .delegate .Call
      | .DynCall => .delegate .DynCall
      | .SysCall => .delegate .SysCall
      | .Trap => .delegate .Trap
      | .AddrFunction => .delegate .AddrFunction
      | .AtomicRmw _ => .todoPanic
      | .AtomicCas => .todoPanic
    | none => .parseErr ("Unknown instruction: " ++ child_node_name)
  | _ => .parseErr "Missing symbol for instruction node."

/-! ## Theorems about the parser-crate embeddings -/

/-- C7: the static instruction lookup table is built exactly once through
the `Once` guard: any positive number of calls to `init_instruction_map`
leaves the globals with the table constructed a single time
(`builds = 1`), holding exactly the table `init_instruction_map_internal`
builds, and further calls never change it again. -/
theorem instruction_map_init_once (n : Nat) (h : 1 ≤ n) :
    init_instruction_map^[n] initialParserGlobals =
      { onceDone := true
        instructionMap := some buildInstructionMap
        builds := 1 } := by
  induction n with
  | zero => exact absurd h (by decide)
  | succ k ih =>
    rw [Function.iterate_succ_apply']
    rcases Nat.eq_zero_or_pos k with hk | hk
    · subst hk
      rfl
    · rw [ih hk]
      rfl

/-- Witness for `instruction_map_init_once` at the concrete call count 3. -/
theorem instruction_map_init_once_witness :
    1 ≤ 3 ∧
      init_instruction_map^[3] initialParserGlobals =
        { onceDone := true
          instructionMap := some buildInstructionMap
          builds := 1 } :=
  ⟨by decide, instruction_map_init_once 3 (by decide)⟩

/-- C8: the `encode` function of the encoder crate is an unimplemented
`todo!()` stub: on every input it panics, and it never returns a byte
vector. -/
theorem encode_stub_always_panics (i : Instruction) (a : Nat)
    (t : List (String × Nat)) :
    encode i a t = .panics ∧ ∀ bs : List Nat, encode i a t ≠ .value bs :=
  ⟨rfl, fun _ h => by simp [encode] at h⟩

set_option maxRecDepth 4096 in
/-- C10: the instruction map accepts the atomic instruction names
`i32.atomic_rmw_add` and `i32.atomic_cas`, yet for token streams headed
by those symbols `parse_instruction_with_parentheses` hits `todo!()`
(panics) instead of returning a parsed instruction or a `ParseError`. -/
theorem parse_atomic_instructions_todo_panic :
    tableLookup "i32.atomic_rmw_add" buildInstructionMap =
        some (.AtomicRmw .i32_atomic_rmw_add) ∧
      tableLookup "i32.atomic_cas" buildInstructionMap = some .AtomicCas ∧
      parse_instruction_with_parentheses buildInstructionMap
          [.LeftParen, .Symbol "i32.atomic_rmw_add"] = .todoPanic ∧
      parse_instruction_with_parentheses buildInstructionMap
          [.LeftParen, .Symbol "i32.atomic_cas"] = .todoPanic := by
  refine ⟨?_, ?_, ?_, ?_⟩ <;> rfl

set_option maxRecDepth 2048 in
/-- C9: the `Register` enumeration has no variant for any of the legacy
high-byte registers AH, BH, CH, DH, so no constructible value of the
encoder's register type denotes a legacy high-byte register. -/
theorem register_enum_no_high_byte_variants (r : Register) :
    Register.name r ≠ "AH" ∧ Register.name r ≠ "BH" ∧
      Register.name r ≠ "CH" ∧ Register.name r ≠ "DH" := by
  revert r
  decide

/-! ## The shape claim C5 makes about `Operand` -/

/-- The scale values the specification allows in a memory operand. -/
inductive ScaleFactor where
  | one | two | four | eight
  deriving DecidableEq

/-- FS/GS segment override. -/
inductive SegmentOverride where
  | FS | GS
  deriving DecidableEq

/-- The fields claim C5 says the `Memory` variant of `Operand` carries: a
base register, an optional index register, a scale in {1,2,4,8}, a signed
displacement, a flag for RIP-relative addressing and an optional FS/GS
segment override.  This definition follows the claim's words, for
comparison with the `Operand` embedded from the source. -/
structure MemoryOperandAsSpecified where
  base : Register
  index : Option Register
  scale : ScaleFactor
  displacement : Int
  ripRelative : Bool
  segmentOverride : Option SegmentOverride
  deriving DecidableEq

/-- `Operand` as claim C5 describes it: the same `Register` and
`Immediate` variants, but a `Memory` variant carrying the addressing
fields above. -/
inductive OperandAsSpecified where
  | Register : Fin 256 → OperandAsSpecified
  | Immediate8 : Fin 256 → OperandAsSpecified
  | Immediate16 : Fin 65536 → OperandAsSpecified
  | Immediate32 : Fin 4294967296 → OperandAsSpecified
  | Immediate64 : Fin 18446744073709551616 → OperandAsSpecified
  | Memory : MemoryOperandAsSpecified → OperandAsSpecified
  deriving DecidableEq

/-- Whether an `OperandAsSpecified` is tagged `Memory`. -/
def OperandAsSpecified.isMemory : OperandAsSpecified → Bool
  | .Memory _ => true
  | _ => false

/-- Claim C5 as a proposition: the source `Operand` type has the shape
the claim describes, i.e. some correspondence identifies the two types
while at least matching up their `Memory`-tagged values.  (This is a
necessary condition of the claim; refuting it refutes the claim.) -/
def operandShapeAsSpecified : Prop :=
  ∃ e : Operand ≃ OperandAsSpecified,
    ∀ o : Operand, o.isMemory = (e o).isMemory

/-- C5 is false on the code: the source `Memory` variant carries a single
`u64` (said by its comment to be a size), so its payload is a finite
type, while the claimed field record contains an unbounded signed
displacement.  No memory-tag-preserving correspondence can exist. -/
theorem memory_variant_fields_refuted : ¬ operandShapeAsSpecified := by
  rintro ⟨e, he⟩
  have hex : ∀ d : ℤ, ∃ n,
      e.symm (.Memory ⟨.RAX, none, .one, d, false, none⟩) =
        Operand.Memory n := by
    intro d
    have h1 : (e.symm
        (OperandAsSpecified.Memory ⟨.RAX, none, .one, d, false, none⟩)).isMemory
          = true := by
      rw [he, Equiv.apply_symm_apply]
      rfl
    cases hov : e.symm
        (OperandAsSpecified.Memory ⟨.RAX, none, .one, d, false, none⟩) <;>
      rw [hov] at h1 <;>
      first
        | exact ⟨_, rfl⟩
        | simp [Operand.isMemory] at h1
  choose payload hpayload using hex
  obtain ⟨a, b, hab, hfab⟩ := Finite.exists_ne_map_eq_of_infinite payload
  have h2 : e.symm (OperandAsSpecified.Memory ⟨.RAX, none, .one, a, false, none⟩)
      = e.symm (OperandAsSpecified.Memory ⟨.RAX, none, .one, b, false, none⟩) := by
    rw [hpayload a, hpayload b, hfab]
  have h3 := e.symm.injective h2
  have h4 : (⟨.RAX, none, .one, a, false, none⟩ : MemoryOperandAsSpecified)
      = ⟨.RAX, none, .one, b, false, none⟩ := by
    injection h3
  have h5 : a = b := congrArg MemoryOperandAsSpecified.displacement h4
  exact hab h5

/-- C5 (amended): `Operand` is a tagged union with exactly the variants
`Register(u8)`, `Immediate8(u8)`, `Immediate16(u16)`, `Immediate32(u32)`,
`Immediate64(u64)` and `Memory(u64)`; the `Memory` variant carries a
single 64-bit size value, not base/index/scale/displacement/RIP/segment
fields. -/
theorem operand_variants_exhaustive (o : Operand) :
    (∃ r : Fin 256, o = .Register r) ∨
      (∃ v : Fin 256, o = .Immediate8 v) ∨
      (∃ v : Fin 65536, o = .Immediate16 v) ∨
      (∃ v : Fin 4294967296, o = .Immediate32 v) ∨
      (∃ v : Fin 18446744073709551616, o = .Immediate64 v) ∨
      (∃ size : Fin 18446744073709551616, o = .Memory size) := by
  cases o with
  | Register r => exact .inl ⟨r, rfl⟩
  | Immediate8 v => exact .inr (.inl ⟨v, rfl⟩)
  | Immediate16 v => exact .inr (.inr (.inl ⟨v, rfl⟩))
  | Immediate32 v => exact .inr (.inr (.inr (.inl ⟨v, rfl⟩)))
  | Immediate64 v => exact .inr (.inr (.inr (.inr (.inl ⟨v, rfl⟩))))
  | Memory size => exact .inr (.inr (.inr (.inr (.inr ⟨size, rfl⟩))))

/-! ## Spec model of the encoder

The byte-packing body of `encode` is a `todo!()` placeholder in
`encoder-x86-64/src/encode.rs` (the spec itself notes this), so the
behaviour the specification assigns to it is modelled here directly from
the specification text (sections 4.1-4.4 and 7). -/

/-- Modelled from the spec: the encoder's error taxonomy (spec section 7);
the `encode` implementation that would produce these values is the
missing `todo!()` body. -/
inductive EncodeError where
  | UnsupportedInstruction
  | NoMatchingEncodingForm
  | InvalidIndexRegister
  | DisplacementOverflow
  | UnsupportedAddressingMode
  | RexHighByteConflict
  | InvalidImmediateWidth
  deriving DecidableEq

/-- Modelled from the spec: operand width classes of the general-purpose
registers (spec section 3, `Register`). -/
inductive OperandWidth where
  | byte | word | dword | qword
  deriving DecidableEq

/-- Modelled from the spec: a classified general-purpose register - its
numeric encoding index 0-15, its width class, and whether it is one of
the legacy high-byte registers AH/BH/CH/DH (spec sections 3 and 4.2). -/
structure RegSpec where
  idx : Fin 16
  width : OperandWidth
  high : Bool
  deriving DecidableEq

/-- The REX extension bit: encoding index `>= 8` (spec section 4.2). -/
def RegSpec.extended (r : RegSpec) : Bool :=
  decide (8 ≤ r.idx.val)

/-- Modelled from the spec: `requires_rex` of section 4.2 - true iff the
encoding index is `>= 8`, or the register is one of SPL/BPL/SIL/DIL
(byte-width, index 4-7, not high-byte), whose encodings need a REX byte
present to be distinguished from AH/BH/CH/DH. -/
def forcesRexPresence (r : RegSpec) : Bool :=
  r.extended ||
    (decide (r.width = .byte) && !r.high &&
      decide (4 ≤ r.idx.val) && decide (r.idx.val ≤ 7))

/-- Modelled from the spec: a memory operand - either an effective
address `base + index*scale + displacement` (base and index optional)
or a RIP-relative label reference (which implies no base register),
optionally with an FS/GS segment override (spec section 3, `Operand`).
The scale is one of {1,2,4,8} by construction (`ScaleFactor`). -/
inductive MemAddr where
  | ea (base : Option RegSpec) (index : Option (RegSpec × ScaleFactor))
      (disp : Int) (seg : Option SegmentOverride)
  | ripRel (label : String) (seg : Option SegmentOverride)

/-- The segment override of a memory operand. -/
def MemAddr.segOverride : MemAddr → Option SegmentOverride
  | .ea _ _ _ s => s
  | .ripRel _ s => s

/-- Modelled from the spec: the resolved displacement of an effective
address - absent, 8-bit, 32-bit, or a 32-bit RIP-relative displacement
still to be patched in once the instruction length is fixed (spec
section 4.3, resolution choice (b)). -/
inductive DispKind where
  | noDisp
  | d8 (v : Int)
  | d32 (v : Int)
  | rip32 (label : String)
  deriving DecidableEq

/-- Modelled from the spec: the output of the effective-address resolver
(spec section 4.3): ModRM.mod, ModRM.r/m, an optional
(scale, index, base) SIB triple, the displacement, and the REX.X/REX.B
extension bits of the index and base registers. -/
structure EffectiveAddress where
  mode : Nat
  rm : Nat
  sib : Option (Nat × Nat × Nat)
  disp : DispKind
  rexX : Bool
  rexB : Bool
  deriving DecidableEq

/-- SIB scale field: log2 of the scale (spec section 4.3). -/
def scaleBits : ScaleFactor → Nat
  | .one => 0
  | .two => 1
  | .four => 2
  | .eight => 3

/-- A displacement representable as a signed 8-bit integer. -/
abbrev fitsI8 (d : Int) : Prop := -128 ≤ d ∧ d ≤ 127

/-- A displacement representable as a signed 32-bit integer. -/
abbrev fitsI32 (d : Int) : Prop := -2147483648 ≤ d ∧ d ≤ 2147483647

/-- Modelled from the spec: the effective-address resolver of section
4.3, reproduced case for case:

* label reference: `mod = 00`, `r/m = 101`, disp32 patched later;
* base only, base not RSP/R12: `r/m` = base's low 3 bits; `mod = 00`
  if the displacement is 0 and the base is not RBP/R13 (whose `mod = 00`
  encoding would mean "no base"), `mod = 01` with disp8 if the
  displacement fits in signed 8 bits (including the forced `disp8 = 0`
  for RBP/R13), `mod = 10` with disp32 otherwise;
* base RSP/R12 (low 3 bits `100`): a SIB byte is mandatory with
  index `100` ("none") and base `100`;
* index present: SIB required; an index with low 3 bits `100` (RSP/R12)
  has no encoding and is `InvalidIndexRegister`; without a base the SIB
  base field is `101` with `mod = 00` ("no base, disp32");
* no base, no index, no label: outside the supported 64-bit subset;
* a displacement that does not fit in 32 signed bits is
  `DisplacementOverflow`, and effective-address registers must be
  64-bit wide (`UnsupportedAddressingMode` otherwise). -/
def resolveEffectiveAddress : MemAddr → Except EncodeError EffectiveAddress
  | .ripRel label _ => .ok ⟨0, 5, none, .rip32 label, false, false⟩
  | .ea none none _ _ => .error .UnsupportedAddressingMode
  | .ea none (some (ir, sc)) disp _ =>
    if ir.width = .qword then
      if ir.idx.val % 8 = 4 then .error .InvalidIndexRegister
      else if fitsI32 disp then
        .ok ⟨0, 4, some (scaleBits sc, ir.idx.val % 8, 5), .d32 disp,
          ir.extended, false⟩
      else .error .DisplacementOverflow
    else .error .UnsupportedAddressingMode
  | .ea (some b) none disp _ =>
    if b.width = .qword then
      if b.idx.val % 8 = 4 then
        if disp = 0 then
          .ok ⟨0, 4, some (0, 4, 4), .noDisp, false, b.extended⟩
        else if fitsI8 disp then
          .ok ⟨1, 4, some (0, 4, 4), .d8 disp, false, b.extended⟩
        else if fitsI32 disp then
          .ok ⟨2, 4, some (0, 4, 4), .d32 disp, false, b.extended⟩
        else .error .DisplacementOverflow
      else
        if disp = 0 ∧ b.idx.val % 8 ≠ 5 then
          .ok ⟨0, b.idx.val % 8, none, .noDisp, false, b.extended⟩
        else if fitsI8 disp then
          .ok ⟨1, b.idx.val % 8, none, .d8 disp, false, b.extended⟩
        else if fitsI32 disp then
          .ok ⟨2, b.idx.val % 8, none, .d32 disp, false, b.extended⟩
        else .error .DisplacementOverflow
    else .error .UnsupportedAddressingMode
  | .ea (some b) (some (ir, sc)) disp _ =>
    if b.width = .qword ∧ ir.width = .qword then
      if ir.idx.val % 8 = 4 then .error .InvalidIndexRegister
      else
        if disp = 0 ∧ b.idx.val % 8 ≠ 5 then
          .ok ⟨0, 4, some (scaleBits sc, ir.idx.val % 8, b.idx.val % 8),
            .noDisp, ir.extended, b.extended⟩
        else if fitsI8 disp then
          .ok ⟨1, 4, some (scaleBits sc, ir.idx.val % 8, b.idx.val % 8),
            .d8 disp, ir.extended, b.extended⟩
        else if fitsI32 disp then
          .ok ⟨2, 4, some (scaleBits sc, ir.idx.val % 8, b.idx.val % 8),
            .d32 disp, ir.extended, b.extended⟩
        else .error .DisplacementOverflow
    else .error .UnsupportedAddressingMode

/-- Modelled from the spec: an operand of the idealized instruction model
(spec section 3, `Operand`): a classified register, an immediate of one
of four widths, or a memory reference. -/
inductive ModelOperand where
  | register (r : RegSpec)
  | imm8 (v : Nat)
  | imm16 (v : Nat)
  | imm32 (v : Nat)
  | imm64 (v : Nat)
  | memory (m : MemAddr)

/-- Modelled from the spec: one idealized machine instruction - a
mnemonic and its ordered operand list (spec section 3, `Instruction`). -/
structure InstructionModel where
  mnemonic : Mnemonic
  operands : List ModelOperand

/-- Whether an operand is a legacy high-byte register (spec section 4.2). -/
def ModelOperand.isHighByteReg : ModelOperand → Bool
  | .register r => r.high
  | _ => false

/-- Modelled from the spec: whether an operand forces a REX byte - a
register with extension index or of the SPL/BPL/SIL/DIL family, a 64-bit
register operand (REX.W), or a memory operand whose base or index
register is extended (spec sections 4.2 and 4.4 step 2). -/
def ModelOperand.forcesRex : ModelOperand → Bool
  | .register r => forcesRexPresence r || decide (r.width = .qword)
  | .memory (.ea base index _ _) =>
    (match base with
      | some b => b.extended
      | none => false) ||
    (match index with
      | some (ir, _) => ir.extended
      | none => false)
  | .memory (.ripRel _ _) => false
  | _ => false

/-- Any operand is a legacy high-byte register. -/
def hasHighByteOperand (i : InstructionModel) : Bool :=
  i.operands.any ModelOperand.isHighByteReg

/-- Any operand forces a REX byte. -/
def hasRexForcingOperand (i : InstructionModel) : Bool :=
  i.operands.any ModelOperand.forcesRex

/-- Little-endian bytes of a signed 32-bit displacement or immediate. -/
def int32LE (v : Int) : List Nat :=
  [(v % 4294967296).toNat % 256,
   (v % 4294967296).toNat / 256 % 256,
   (v % 4294967296).toNat / 65536 % 256,
   (v % 4294967296).toNat / 16777216 % 256]

/-- Modelled from the spec: the byte emitter for the `MOV r/m, r` (MR)
form with two register operands (spec sections 4.1 and 4.4): optional
`0x66` prefix for 16-bit width, a REX byte `0100WRXB` when 64-bit width,
an extended register or an SPL/BPL/SIL/DIL register demands one
(REX.R from the `reg` operand, REX.B from the `r/m` operand), opcode
`0x88` for byte width and `0x89` otherwise, then
`ModRM = (11 << 6) | (reg << 3) | rm`. -/
def encodeMovRegReg (dst src : RegSpec) : Except EncodeError (List Nat) :=
  if dst.width = src.width then
    let rexW := decide (dst.width = .qword)
    let rexR := src.extended
    let rexB := dst.extended
    let rexNeeded :=
      rexW || rexR || rexB || forcesRexPresence dst || forcesRexPresence src
    let pre := if dst.width = .word then [0x66] else []
    let rex :=
      if rexNeeded then
        [0x40 + cond rexW 8 0 + cond rexR 4 0 + cond rexB 1 0]
      else []
    let opcode := if dst.width = .byte then 0x88 else 0x89
    let modrm := 0xC0 + src.idx.val % 8 * 8 + dst.idx.val % 8
    .ok (pre ++ rex ++ [opcode, modrm])
  else .error .NoMatchingEncodingForm

/-- Modelled from the spec: the byte emitter for the `MOV` forms with one
memory operand (spec section 4.4, steps 1-6): segment-override prefix
(`0x64` FS / `0x65` GS), `0x66` for 16-bit width, REX `0100WRXB`
(REX.R from the register operand, REX.X/REX.B from the resolved
effective address), opcode `0x8A`/`0x8B` for the load (RM) form and
`0x88`/`0x89` for the store (MR) form, ModRM, optional SIB, then the
displacement bytes little-endian; a RIP-relative disp32 is patched in
last, once the byte count before it is known (spec section 4.3 choice
(b)), and is `DisplacementOverflow` if it does not fit in 32 bits. -/
def encodeMovMem (loadForm : Bool) (m : MemAddr) (reg : RegSpec)
    (currentAddress : Nat) (labels : List (String × Nat)) :
    Except EncodeError (List Nat) :=
  match resolveEffectiveAddress m with
  | .error e => .error e
  | .ok ea =>
    let segPre :=
      match m.segOverride with
      | some .FS => [0x64]
      | some .GS => [0x65]
      | none => []
    let pre66 := if reg.width = .word then [0x66] else []
    let rexW := decide (reg.width = .qword)
    let rexR := reg.extended
    let rexNeeded :=
      rexW || rexR || ea.rexX || ea.rexB || forcesRexPresence reg
    let rex :=
      if rexNeeded then
        [0x40 + cond rexW 8 0 + cond rexR 4 0 +
          cond ea.rexX 2 0 + cond ea.rexB 1 0]
      else []
    let opcode :=
      if reg.width = .byte then cond loadForm 0x8A 0x88
      else cond loadForm 0x8B 0x89
    let modrm := ea.mode * 64 + reg.idx.val % 8 * 8 + ea.rm
    let sibBytes :=
      match ea.sib with
      | some (s, x, b) => [s * 64 + x * 8 + b]
      | none => []
    let preBytes := segPre ++ pre66 ++ rex ++ [opcode, modrm] ++ sibBytes
    match ea.disp with
    | .noDisp => .ok preBytes
    | .d8 v => .ok (preBytes ++ [(v % 256).toNat])
    | .d32 v => .ok (preBytes ++ int32LE v)
    | .rip32 label =>
      let target : Int := ((labels.lookup label).getD 0 : Nat)
      let d : Int := target - (currentAddress + preBytes.length + 4)
      if fitsI32 d then .ok (preBytes ++ int32LE d)
      else .error .DisplacementOverflow

/-- Modelled from the spec: the encoder
`(Instruction, current_address, label_table) -> bytes-or-error` whose
implementation is the `todo!()` body of `encode`.  It first enforces the
high-byte/REX exclusion of section 4.2, then selects the encoding form
from the mnemonic and the operand shapes (section 4.1): the
register-register and register-memory `MOV` forms are emitted; `MOV`
operand shapes outside the modelled forms are `NoMatchingEncodingForm`,
and other mnemonics are outside the modelled table
(`UnsupportedInstruction`). -/
def encodeModel (i : InstructionModel) (currentAddress : Nat)
    (labels : List (String × Nat)) : Except EncodeError (List Nat) :=
  if hasHighByteOperand i && hasRexForcingOperand i then
    .error .RexHighByteConflict
  else
    match i.mnemonic, i.operands with
    | .MOV, [.register dst, .register src] => encodeMovRegReg dst src
    | .MOV, [.memory m, .register src] =>
      encodeMovMem false m src currentAddress labels
    | .MOV, [.register dst, .memory m] =>
      encodeMovMem true m dst currentAddress labels
    | .MOV, _ => .error .NoMatchingEncodingForm
    | _, _ => .error .UnsupportedInstruction

/-- The classified register RAX: index 0, 64-bit. -/
def regRAX : RegSpec := ⟨0, .qword, false⟩

/-- The classified register RCX: index 1, 64-bit. -/
def regRCX : RegSpec := ⟨1, .qword, false⟩

/-- The classified register RBX: index 3, 64-bit. -/
def regRBX : RegSpec := ⟨3, .qword, false⟩

/-- The classified register RBP: index 5, 64-bit. -/
def regRBP : RegSpec := ⟨5, .qword, false⟩

/-- The classified register R9B: index 9, 8-bit low byte. -/
def regR9B : RegSpec := ⟨9, .byte, false⟩

/-- The classified register CL: index 1, 8-bit low byte. -/
def regCL : RegSpec := ⟨1, .byte, false⟩

/-- The legacy high-byte register CH: index 5, 8-bit high byte. -/
def regCH : RegSpec := ⟨5, .byte, true⟩

/-! ## Theorems about the spec-modelled encoder -/

/-- C1: encoding `MOV RAX, RCX` (register to register, 64-bit operands)
produces exactly the bytes `48 89 C8`, for every current address and
every label-address table. -/
theorem encode_mov_rax_rcx_bytes (a : Nat) (t : List (String × Nat)) :
    encodeModel ⟨.MOV, [.register regRAX, .register regRCX]⟩ a t =
      .ok [0x48, 0x89, 0xC8] := rfl

/-- C2: for a memory operand with a base register present, no index
register, and a base other than RSP/R12, the effective-address resolver
selects `ModRM.mod = 00` exactly when the displacement is 0 and the base
is not RBP/R13 (RBP/R13 instead force `mod = 01` with `disp8 = 0`),
`mod = 01` with an 8-bit displacement when the displacement fits in
signed 8 bits, and `mod = 10` with a 32-bit displacement otherwise. -/
theorem resolve_ea_mod_selection_base_only (b : RegSpec) (disp : Int)
    (seg : Option SegmentOverride) (hw : b.width = .qword)
    (hb : b.idx.val % 8 ≠ 4) (hfit : fitsI32 disp) :
    ∃ ea : EffectiveAddress,
      resolveEffectiveAddress (.ea (some b) none disp seg) = .ok ea ∧
        ea.rm = b.idx.val % 8 ∧
        ((disp = 0 ∧ b.idx.val % 8 ≠ 5) → ea.mode = 0 ∧ ea.disp = .noDisp) ∧
        (¬(disp = 0 ∧ b.idx.val % 8 ≠ 5) → fitsI8 disp →
          ea.mode = 1 ∧ ea.disp = .d8 disp) ∧
        (¬ fitsI8 disp → ea.mode = 2 ∧ ea.disp = .d32 disp) := by
  simp only [resolveEffectiveAddress]
  rw [if_pos hw, if_neg hb]
  by_cases h0 : disp = 0 ∧ b.idx.val % 8 ≠ 5
  · rw [if_pos h0]
    refine ⟨_, rfl, rfl, fun _ => ⟨rfl, rfl⟩, fun hn => absurd h0 hn, fun h8 => ?_⟩
    exact absurd (by rw [h0.1]; decide) h8
  · rw [if_neg h0]
    by_cases h8 : fitsI8 disp
    · rw [if_pos h8]
      exact ⟨_, rfl, rfl, fun h => absurd h h0, fun _ _ => ⟨rfl, rfl⟩,
        fun hn => absurd h8 hn⟩
    · rw [if_neg h8, if_pos hfit]
      exact ⟨_, rfl, rfl, fun h => absurd h h0, fun _ h => absurd h h8,
        fun _ => ⟨rfl, rfl⟩⟩

/-- Witness for `resolve_ea_mod_selection_base_only` at the concrete
operand `[RBX + 16]`. -/
theorem resolve_ea_mod_selection_base_only_witness :
    regRBX.width = .qword ∧ regRBX.idx.val % 8 ≠ 4 ∧ fitsI32 16 ∧
      ∃ ea : EffectiveAddress,
        resolveEffectiveAddress (.ea (some regRBX) none 16 none) = .ok ea ∧
          ea.rm = regRBX.idx.val % 8 ∧
          (((16 : Int) = 0 ∧ regRBX.idx.val % 8 ≠ 5) →
            ea.mode = 0 ∧ ea.disp = .noDisp) ∧
          (¬((16 : Int) = 0 ∧ regRBX.idx.val % 8 ≠ 5) → fitsI8 16 →
            ea.mode = 1 ∧ ea.disp = .d8 16) ∧
          (¬ fitsI8 16 → ea.mode = 2 ∧ ea.disp = .d32 16) :=
  ⟨rfl, by decide, by decide,
    resolve_ea_mod_selection_base_only regRBX 16 none rfl (by decide)
      (by decide)⟩

/-- C3: for every input, the modelled encode call either produces a
complete byte sequence or returns one of the typed `EncodeError` values
to its caller; there is no third outcome. -/
theorem encode_total_ok_or_error (i : InstructionModel) (a : Nat)
    (t : List (String × Nat)) :
    (∃ bs : List Nat, encodeModel i a t = .ok bs) ∨
      (∃ e : EncodeError, encodeModel i a t = .error e) := by
  cases encodeModel i a t with
  | ok bs => exact .inl ⟨bs, rfl⟩
  | error e => exact .inr ⟨e, rfl⟩

/-- C4: encoding is deterministic - the modelled encoder is a pure
function of the `(instruction, current_address, label_table)` triple, so
two invocations on the same triple yield byte-identical output. -/
theorem encode_deterministic (i : InstructionModel) (a : Nat)
    (t : List (String × Nat)) :
    encodeModel i a t = encodeModel i a t := rfl

/-- C6: an instruction mixing a legacy high-byte register operand with
any REX-forcing operand (in particular any R8-R15 register) fails with
`RexHighByteConflict`; no bytes are emitted for it. -/
theorem encode_high_byte_rex_conflict (i : InstructionModel) (a : Nat)
    (t : List (String × Nat)) (h1 : hasHighByteOperand i = true)
    (h2 : hasRexForcingOperand i = true) :
    encodeModel i a t = .error .RexHighByteConflict := by
  simp [encodeModel, h1, h2]

/-- Witness for `encode_high_byte_rex_conflict` at the concrete
instruction `MOV R9B, CH` (extended R9B forces REX, CH is high-byte). -/
theorem encode_high_byte_rex_conflict_witness :
    hasHighByteOperand ⟨.MOV, [.register regR9B, .register regCH]⟩ = true ∧
      hasRexForcingOperand ⟨.MOV, [.register regR9B, .register regCH]⟩
        = true ∧
      encodeModel ⟨.MOV, [.register regR9B, .register regCH]⟩ 0 [] =
        .error .RexHighByteConflict :=
  ⟨rfl, rfl,
    encode_high_byte_rex_conflict ⟨.MOV, [.register regR9B, .register regCH]⟩
      0 [] rfl rfl⟩
